import Mathlib

/-!
# Media Review System — shallow embedding and verification

A shallow embedding of the Python media-review service
(`media_review.py`, schema setup in `init.py`), with theorems settling
the specification's claims about it.

Database state is modelled as explicit lists of rows; sqlite statements
become pure functions on that state.  Python exceptions (`TypeError` from
instantiating the abstract `Media` class, `redis` connection errors)
become an `Except` error channel.  The redis cache is a single-key store
(the code only ever touches the key `"media_list"`), modelled together
with the observable get/set operations a call performs.
-/

namespace MediaReview

/-- Python-level errors that the modelled paths can raise:
`cacheError` is a `redis.exceptions.ConnectionError` from `cache.get` /
`cache.set`; `typeError` is Python's `TypeError` raised when instantiating
the abstract class `Media`. -/
inductive PyError
  | cacheError (msg : String)
  | typeError (msg : String)
deriving Repr, DecidableEq

/-- The concrete media variants returned by `MediaFactory.create_media`.
`Movie`, `WebShow` and `Song` are the classes present in the factory's
`media_classes` dict (`media_review.py` line 119).  The `Cartoon` class is
defined in the source but never registered in that dict, so the factory
can never return it; the "generic `Media`" fallback cannot be constructed
at all (see `create_media`). -/
inductive MediaObj
  | movie (title : String)
  | webShow (title : String)
  | song (title : String)
deriving Repr, DecidableEq

/-- `get_details` of the concrete media classes: each renders
`"{Kind}: {title}"`. -/
def get_details : MediaObj → String
  | .movie t => "Movie: " ++ t
  | .webShow t => "WebShow: " ++ t
  | .song t => "Song: " ++ t

/-- `MediaFactory.create_media(title, media_type)`.  The dispatch dict is
`{"Movie": Movie, "WebShow": WebShow, "Song": Song}` — `"Cartoon"` is NOT
a key.  On an unrecognized type the code logs a warning and executes
`Media(title, media_type)`; `Media` is an ABC with the abstract method
`get_details`, so that call raises
`TypeError: Can't instantiate abstract class Media ...` in Python. -/
def create_media (title media_type : String) : Except PyError MediaObj :=
  if media_type == "Movie" then .ok (.movie title)
  else if media_type == "WebShow" then .ok (.webShow title)
  else if media_type == "Song" then .ok (.song title)
  else
    .error (.typeError "Can't instantiate abstract class Media with abstract method get_details")

/-- Whether `create_media` logs a `logging.warning` (it does exactly when
the type misses the `media_classes` dict, just before attempting the
generic `Media(...)` construction). -/
def create_media_warns (media_type : String) : Bool :=
  !(media_type == "Movie" || media_type == "WebShow" || media_type == "Song")

/-- A row of the `media` table: `media(id, title UNIQUE, type)`. -/
structure MediaRow where
  id : Nat
  title : String
  type : String
deriving Repr, DecidableEq

/-- A row of the `reviews` table created by `media_review.py` (lines
59–69): `reviews(id, user_id, media_id, rating, comment)`.  Note that
this schema has NO `CHECK` constraint on `rating` (the variant schema in
`init.py` declares `CHECK (rating BETWEEN 1 AND 5)`). -/
structure Review where
  user_id : Nat
  media_id : Nat
  rating : Int
  comment : String
deriving Repr, DecidableEq

/-- A row of the `favorites` table (created only by `init.py`):
`favorites(id, user_id, media_id, ..., UNIQUE(user_id, media_id) ON
CONFLICT IGNORE)`. -/
structure Favorite where
  user_id : Nat
  media_id : Nat
deriving Repr, DecidableEq

/-- A row of the `alerts` table: `alerts(id, user_id, alert)`. -/
structure Alert where
  user_id : Nat
  message : String
deriving Repr, DecidableEq

/-- The persistent store.  Users are kept as their ids (username/password
play no role in the verified paths).  Row ids assigned by
`AUTOINCREMENT` are immaterial to the claims and omitted; list order is
insertion order, which is the order sqlite returns rows in for these
unordered queries. -/
structure DBState where
  users : List Nat
  media : List MediaRow
  reviews : List Review
  favorites : List Favorite
  alerts : List Alert
deriving Repr, DecidableEq

/-- The `limit` argument of `list_media`: the CLI passes the string
`"all"` or a numeric string that the code converts with `int(limit)`. -/
inductive Limit
  | all
  | num (n : Nat)
deriving Repr, DecidableEq

/-- The average-rating column computed by
`IFNULL(AVG(r.rating), 'No Ratings')`: sqlite's `AVG` over an empty
group is NULL, turned into the string `'No Ratings'`; otherwise the
arithmetic mean (modelled exactly in `ℚ`; sqlite computes a REAL, which
agrees on the concrete instances below). -/
inductive AvgRating
  | noRatings
  | avg (q : ℚ)
deriving Repr, DecidableEq

/-- The reviews joined to a given media id
(`LEFT JOIN reviews r ON m.id = r.media_id`). -/
def reviewsFor (st : DBState) (media_id : Nat) : List Review :=
  st.reviews.filter (fun r => r.media_id == media_id)

/-- The `avg_rating` column of `list_media`'s query for one media id. -/
def mediaAvg (st : DBState) (media_id : Nat) : AvgRating :=
  let rs := reviewsFor st media_id
  if rs.isEmpty then .noRatings
  else .avg ((rs.map (fun r => (r.rating : ℚ))).sum / (rs.length : ℚ))

/-- One result row of `list_media`'s catalog query:
`SELECT m.id, m.title, m.type, IFNULL(AVG(r.rating), 'No Ratings')`. -/
structure CatalogRow where
  id : Nat
  title : String
  type : String
  avg : AvgRating
deriving Repr, DecidableEq

/-- The grouped catalog query without a LIMIT: one row per media row
(media ids are unique — `id` is the primary key — so `GROUP BY m.id`
groups exactly the reviews of each media row). -/
def catalogRows (st : DBState) : List CatalogRow :=
  st.media.map (fun m => { id := m.id, title := m.title, type := m.type, avg := mediaAvg st m.id })

/-- The catalog query with the optional `LIMIT ?` clause appended when
`limit != "all"`. -/
def catalogQuery (st : DBState) (limit : Limit) : List CatalogRow :=
  match limit with
  | .all => catalogRows st
  | .num n => (catalogRows st).take n

/-- Rendering of the `avg_rating` cell (sqlite already returns the
string `'No Ratings'` for NULL averages; numeric formatting is
abstracted). -/
def avgDisplay : AvgRating → String
  | .noRatings => "No Ratings"
  | .avg q => toString q

/-- One entry of `table_data`:
`[row[0], MediaFactory.create_media(row[1], row[2]).get_details(), row[3]]`.
`create_media` raises for unregistered types, and that exception
propagates out of the list comprehension. -/
def renderRow (r : CatalogRow) : Except PyError String :=
  match create_media r.title r.type with
  | .error e => .error e
  | .ok obj => .ok (toString r.id ++ " | " ++ get_details obj ++ " | " ++ avgDisplay r.avg)

/-- The `table_data` list comprehension: rows are rendered in order and
the first raising row aborts the whole comprehension. -/
def renderRows : List CatalogRow → Except PyError (List String)
  | [] => .ok []
  | r :: rs =>
    match renderRow r with
    | .error e => .error e
    | .ok line =>
      match renderRows rs with
      | .error e => .error e
      | .ok lines => .ok (line :: lines)

/-- The tabulated text (`tabulate(..., tablefmt="grid")` is an external
library; it is modelled as a deterministic line-per-row rendering, which
is all the claims depend on). -/
def renderTable (rows : List CatalogRow) : Except PyError String :=
  match renderRows rows with
  | .error e => .error e
  | .ok lines => .ok (String.intercalate "\n" lines)

/-- Behaviour of the redis cache during one call: the entry currently
stored under `"media_list"` (value and remaining TTL; `none` when absent
or expired), and whether the `get` / `set` round-trips raise a
`ConnectionError`.  `media_review.py` wraps neither `cache.get` (line
185) nor `cache.set` (line 219) in any error handling. -/
structure CacheBehavior where
  entry : Option (String × Nat)
  getFails : Bool
  setFails : Bool
deriving Repr, DecidableEq

/-- Python truthiness of `cached_media`: non-None and non-empty. -/
def cachedTruthy (cb : CacheBehavior) : Bool :=
  match cb.entry with
  | some (v, _) => v != ""
  | none => false

/-- The condition `cached_media and limit == "all"` of line 187. -/
def cacheHit (cb : CacheBehavior) (limit : Limit) : Bool :=
  cachedTruthy cb && (limit == Limit.all)

/-- Observable outcome of one `list_media` call: the printed lines, the
cache entry after the call, and the cache operations performed. -/
structure ListMediaResult where
  output : List String
  cacheAfter : Option (String × Nat)
  getsPerformed : List String
  setsPerformed : List (String × String × Nat)
deriving Repr, DecidableEq

/-- `list_media(limit)` (lines 184–219).  Control flow mirrors the
source line by line:
* `cached_media = cache.get("media_list")` — unconditional; if redis
  raises, the exception propagates out of `list_media`;
* `if cached_media and limit == "all": print(cached); return`;
* otherwise query the store (with `LIMIT` when bounded);
* `if not results: print("No media found...")` — no cache write;
* else render the table, print it, and
  `cache.set("media_list", table_output, ex=60)` — unconditional on this
  branch, for bounded and unbounded limits alike; a raising `set`
  propagates. -/
def list_media (cb : CacheBehavior) (st : DBState) (limit : Limit) :
    Except PyError ListMediaResult :=
  if cb.getFails then .error (.cacheError "Error connecting to localhost:6379")
  else if cacheHit cb limit then
    .ok { output := ["Fetching from cache...", ((cb.entry.map Prod.fst).getD "")],
          cacheAfter := cb.entry,
          getsPerformed := ["media_list"],
          setsPerformed := [] }
  else
    let results := catalogQuery st limit
    if results.isEmpty then
      .ok { output := ["Fetching from database...", "No media found. Please add media first!"],
            cacheAfter := cb.entry,
            getsPerformed := ["media_list"],
            setsPerformed := [] }
    else
      match renderTable results with
      | .error e => .error e
      | .ok table =>
        if cb.setFails then .error (.cacheError "Error connecting to localhost:6379")
        else
          .ok { output := ["Fetching from database...", table],
                cacheAfter := some (table, 60),
                getsPerformed := ["media_list"],
                setsPerformed := [("media_list", table, 60)] }

/-- `add_favorite(user_id, media_id)` (lines 175–179):
`INSERT INTO favorites (user_id, media_id) VALUES (?, ?)` against the
`init.py` schema, whose `UNIQUE(user_id, media_id) ON CONFLICT IGNORE`
makes sqlite silently skip a duplicate insert instead of raising. -/
def add_favorite (st : DBState) (user_id media_id : Nat) : DBState :=
  if st.favorites.contains ⟨user_id, media_id⟩ then st
  else { st with favorites := st.favorites ++ [⟨user_id, media_id⟩] }

/-- The alert text of `add_review.review_task` (line 243):
`f"User {user_id} added a review for media ID {media_id}."`. -/
def alert_message (user_id media_id : Nat) : String :=
  "User " ++ toString user_id ++ " added a review for media ID " ++ toString media_id ++ "."

/-- The alert rows inserted by `review_task` (lines 237–247): select the
`user_id`s of `favorites` rows for this media, and insert one alert per
such user other than the reviewer (`if fav_user_id != user_id`). -/
def derive_alerts (st : DBState) (user_id media_id : Nat) : List Alert :=
  ((((st.favorites.filter (fun f => f.media_id == media_id)).map Favorite.user_id).filter
      (fun u => u != user_id)).map
    (fun u => { user_id := u, message := alert_message user_id media_id }))

/-- One `review_task(media_id, rating, comment)` (lines 231–249): insert
the review row, then insert the derived alerts, in one transaction.  The
rating is NOT validated here, and the `reviews` schema that
`media_review.py` itself creates has no `CHECK` constraint, so the insert
succeeds for any integer rating.  (The variant schema in `init.py`
declares `CHECK (rating BETWEEN 1 AND 5)`, under which the store would
reject an out-of-range integer rating.) -/
def review_task (user_id : Nat) (st : DBState) (item : Nat × Int × String) : DBState :=
  let st1 := { st with
    reviews := st.reviews ++ [Review.mk user_id item.1 item.2.1 item.2.2] }
  { st1 with alerts := st1.alerts ++ derive_alerts st1 user_id item.1 }

/-- `add_review(user_id, reviews)` (lines 222–260): first check
`SELECT id FROM users WHERE id = ?`; when the user is missing, print
"Invalid user ID" and return before any thread is spawned.  Otherwise
run one `review_task` per item.  Each task is a thread with its own
transaction; since every task only appends rows and sqlite serializes
the writes, the final store contents equal those of running the tasks in
sequence (item order only affects immaterial row ids). -/
def add_review (user_id : Nat) (items : List (Nat × Int × String)) (st : DBState) : DBState :=
  if st.users.contains user_id then items.foldl (review_task user_id) st
  else st

/-- `remove_user(user_id)` (lines 383–396): executes only
`DELETE FROM users WHERE id = ?`.  sqlite keeps foreign-key enforcement
OFF unless `PRAGMA foreign_keys = ON` is issued on the connection, and no
file of this repository ever issues it, so the `ON DELETE CASCADE`
clauses declared on `reviews` and `alerts` never fire: only the `users`
row is deleted and every dependent row survives. -/
def remove_user (st : DBState) (user_id : Nat) : DBState :=
  { st with users := st.users.filter (fun u => u != user_id) }

/-! ## Claim theorems -/

/-- Claim C1: the spec says `create_media` never raises, renders
`"Cartoon: {title}"` for kind `"Cartoon"`, and returns a generic
title-rendering variant for unknown kinds.  The code contradicts its own
comment ("Return a generic Media object instead of raising an error"):
`"Cartoon"` is missing from the factory's dispatch dict, and the generic
fallback instantiates the abstract class `Media`, which raises
`TypeError` — so `"Cartoon"` and every other unregistered kind raise
instead of returning an object.  Only `Movie`, `WebShow` and `Song`
behave as claimed. -/
theorem C1_create_media_raises_on_cartoon :
    create_media "Casablanca" "Movie" = .ok (.movie "Casablanca") ∧
    get_details (.movie "Casablanca") = "Movie: Casablanca" ∧
    create_media "Severance" "WebShow" = .ok (.webShow "Severance") ∧
    get_details (.webShow "Severance") = "WebShow: Severance" ∧
    create_media "Hey Jude" "Song" = .ok (.song "Hey Jude") ∧
    get_details (.song "Hey Jude") = "Song: Hey Jude" ∧
    create_media "Tom and Jerry" "Cartoon" =
      .error (.typeError "Can't instantiate abstract class Media with abstract method get_details") ∧
    create_media "Serial" "Podcast" =
      .error (.typeError "Can't instantiate abstract class Media with abstract method get_details") ∧
    create_media_warns "Cartoon" = true ∧
    create_media_warns "Movie" = false := by
  refine ⟨rfl, rfl, rfl, rfl, rfl, rfl, rfl, rfl, rfl, rfl⟩

/-- Claim C2: the spec says a rating outside the integers 1..5 is
rejected before any write.  `add_review` performs no rating validation
and the `reviews` schema created by `media_review.py` has no `CHECK`
constraint, so an item with rating 7 submitted by an existing user is
inserted into the store. -/
theorem C2_out_of_range_rating_inserted :
    (add_review 1 [(1, 7, "way too good")]
        (DBState.mk [1] [MediaRow.mk 1 "Inception" "Movie"] [] [] [])).reviews
      = [Review.mk 1 1 7 "way too good"] := by
  rfl

/-- Claim C5: the spec says deleting a user cascades to that user's
reviews, alerts and favorites.  `remove_user` only issues
`DELETE FROM users WHERE id = ?` and no connection in the repository
ever runs `PRAGMA foreign_keys = ON`, so sqlite never enforces the
declared `ON DELETE CASCADE` clauses: at this concrete store, deleting
user 1 leaves the review, favorite and alert rows owned by user 1 in
place. -/
theorem C5_remove_user_does_not_cascade :
    remove_user
        (DBState.mk [1, 2] [MediaRow.mk 1 "Inception" "Movie"]
          [Review.mk 1 1 5 "great"] [Favorite.mk 1 1] [Alert.mk 1 "ping"]) 1
      = DBState.mk [2] [MediaRow.mk 1 "Inception" "Movie"]
          [Review.mk 1 1 5 "great"] [Favorite.mk 1 1] [Alert.mk 1 "ping"] := by
  rfl

/-- Claim C3 (counterexample): the claim says a bounded `list_media`
call never reads and never writes the cache.  At a store with one media
row and an empty cache, the bounded call `limit = 1` performs the
unconditional `cache.get("media_list")` AND ends by writing its rendered
bounded table under the fixed key `"media_list"` with TTL 60. -/
theorem C3_bounded_call_reads_and_writes_cache :
    list_media (CacheBehavior.mk none false false)
        (DBState.mk [] [MediaRow.mk 1 "Inception" "Movie"] [] [] []) (Limit.num 1)
      = .ok (ListMediaResult.mk
          ["Fetching from database...", "1 | Movie: Inception | No Ratings"]
          (some ("1 | Movie: Inception | No Ratings", 60))
          ["media_list"]
          [("media_list", "1 | Movie: Inception | No Ratings", 60)]) := by
  rfl

/-- Claim C4 (counterexample): the claim says a cache failure degrades
to a direct store query and still produces the listing.  With one media
row in the store and a raising cache, `list_media "all"` propagates the
redis `ConnectionError` to the caller instead of producing any listing:
`cache.get` on line 185 is not wrapped in any error handling. -/
theorem C4_cache_failure_propagates :
    list_media (CacheBehavior.mk none true false)
        (DBState.mk [] [MediaRow.mk 1 "Inception" "Movie"] [] [] []) Limit.all
      = .error (.cacheError "Error connecting to localhost:6379") := by
  rfl

/-- Claim C4 (amended): a failure of the `cache.get` round-trip is fatal
to `list_media` for every store state and every limit: the connection
error propagates to the caller and no store fallback produces a
listing. -/
theorem C4_amended_cache_get_failure_is_fatal (cb : CacheBehavior) (st : DBState)
    (limit : Limit) (hget : cb.getFails = true) :
    list_media cb st limit = .error (.cacheError "Error connecting to localhost:6379") := by
  simp [list_media, hget]

/-- Witness for `C4_amended_cache_get_failure_is_fatal` at a concrete
failing cache, store and limit. -/
theorem C4_amended_witness :
    (CacheBehavior.mk (some ("stale", 10)) true false).getFails = true ∧
    list_media (CacheBehavior.mk (some ("stale", 10)) true false)
        (DBState.mk [1] [MediaRow.mk 1 "Up" "Movie"] [] [] []) (Limit.num 3)
      = .error (.cacheError "Error connecting to localhost:6379") :=
  ⟨rfl, C4_amended_cache_get_failure_is_fatal _ _ _ rfl⟩

/-- Claim C6: when the acting user id does not exist in the users table,
`add_review` reports the invalid user and returns before spawning any
per-item task: the store is left completely unchanged — no review and no
alert row is inserted for any item of the batch. -/
theorem C6_invalid_user_fails_fast (st : DBState) (user_id : Nat)
    (items : List (Nat × Int × String))
    (h : st.users.contains user_id = false) :
    add_review user_id items st = st := by
  unfold add_review
  rw [h]
  simp

/-- Witness for `C6_invalid_user_fails_fast`: user 9 is absent, so a
two-item batch leaves the concrete store untouched. -/
theorem C6_witness :
    (DBState.mk [2] [MediaRow.mk 1 "Up" "Movie"] [] [] []).users.contains 9 = false ∧
    add_review 9 [(1, 5, "good"), (1, 4, "fine")]
        (DBState.mk [2] [MediaRow.mk 1 "Up" "Movie"] [] [] [])
      = DBState.mk [2] [MediaRow.mk 1 "Up" "Movie"] [] [] [] :=
  ⟨rfl, C6_invalid_user_fails_fast _ 9 _ rfl⟩

/-- Claim C8: in the catalog rows `list_media` computes, every media row
appears with its `IFNULL(AVG(r.rating), 'No Ratings')` column; a media
item with zero reviews reports the string `'No Ratings'`, and a media
item whose only review has rating 4 reports the average 4.  (The value
is computed by a function of the store, hence deterministic.) -/
theorem C8_avg_rating_no_ratings_and_four (st : DBState) (m : MediaRow)
    (u : Nat) (c : String) (hm : m ∈ st.media) :
    CatalogRow.mk m.id m.title m.type (mediaAvg st m.id) ∈ catalogRows st ∧
    (reviewsFor st m.id = [] → mediaAvg st m.id = .noRatings) ∧
    (reviewsFor st m.id = [Review.mk u m.id 4 c] → mediaAvg st m.id = .avg 4) := by
  refine ⟨List.mem_map.mpr ⟨m, hm, rfl⟩, ?_, ?_⟩
  · intro h
    simp [mediaAvg, h]
  · intro h
    simp [mediaAvg, h]

/-- Witness for `C8_avg_rating_no_ratings_and_four` at a concrete store
with one unreviewed media row and one media row holding a single
rating-4 review. -/
theorem C8_witness :
    mediaAvg (DBState.mk [1] [MediaRow.mk 1 "Cars" "Movie", MediaRow.mk 2 "Up" "Movie"]
        [Review.mk 1 1 4 "nice"] [] []) 2 = .noRatings ∧
    mediaAvg (DBState.mk [1] [MediaRow.mk 1 "Cars" "Movie", MediaRow.mk 2 "Up" "Movie"]
        [Review.mk 1 1 4 "nice"] [] []) 1 = .avg 4 :=
  ⟨(C8_avg_rating_no_ratings_and_four _ (MediaRow.mk 2 "Up" "Movie") 1 "nice"
      (by decide)).2.1 rfl,
   (C8_avg_rating_no_ratings_and_four _ (MediaRow.mk 1 "Cars" "Movie") 1 "nice"
      (by decide)).2.2 rfl⟩

/-- Claim C9: `add_favorite` is idempotent thanks to the
`UNIQUE(user_id, media_id) ON CONFLICT IGNORE` clause of the favorites
schema: starting from a store without the pair, favoriting the same
(user, media) pair twice leaves exactly one matching row, and the second
insert is silently skipped (it returns the unchanged store, raising
nothing). -/
theorem C9_add_favorite_idempotent (st : DBState) (u m : Nat)
    (h : st.favorites.count (Favorite.mk u m) ≤ 1) :
    add_favorite (add_favorite st u m) u m = add_favorite st u m ∧
    (add_favorite (add_favorite st u m) u m).favorites.count (Favorite.mk u m) = 1 := by
  by_cases hmem : Favorite.mk u m ∈ st.favorites
  · have hc : st.favorites.contains (Favorite.mk u m) = true := by
      simpa using hmem
    have h1 : add_favorite st u m = st := by
      unfold add_favorite
      rw [hc]
      simp
    rw [h1, h1]
    exact ⟨rfl, le_antisymm h (List.count_pos_iff.mpr hmem)⟩
  · have hc : st.favorites.contains (Favorite.mk u m) = false := by
      simpa using hmem
    have h0 : st.favorites.count (Favorite.mk u m) = 0 := List.count_eq_zero.mpr hmem
    have h1 : add_favorite st u m
        = { st with favorites := st.favorites ++ [Favorite.mk u m] } := by
      unfold add_favorite
      rw [hc]
      simp
    have h2 : add_favorite { st with favorites := st.favorites ++ [Favorite.mk u m] } u m
        = { st with favorites := st.favorites ++ [Favorite.mk u m] } := by
      unfold add_favorite
      simp
    refine ⟨by rw [h1, h2, ← h1], ?_⟩
    rw [h1, h2]
    simp [List.count_append, h0]

/-- Witness for `C9_add_favorite_idempotent`: favoriting (1, 1) twice in
a store with no favorites leaves exactly one row. -/
theorem C9_witness :
    (DBState.mk [1] [MediaRow.mk 1 "Up" "Movie"] [] [] []).favorites.count
        (Favorite.mk 1 1) ≤ 1 ∧
    (add_favorite (add_favorite (DBState.mk [1] [MediaRow.mk 1 "Up" "Movie"] [] [] []) 1 1) 1 1
      = add_favorite (DBState.mk [1] [MediaRow.mk 1 "Up" "Movie"] [] [] []) 1 1 ∧
     (add_favorite (add_favorite (DBState.mk [1] [MediaRow.mk 1 "Up" "Movie"] [] [] []) 1 1)
        1 1).favorites.count (Favorite.mk 1 1) = 1) :=
  ⟨by decide, C9_add_favorite_idempotent _ 1 1 (by decide)⟩

/-- Claim C10: when the catalog query returns zero rows (empty media
table), `list_media` leaves the cache entry — value and TTL — exactly as
it was and performs no cache write, whatever the limit: the
`cache.set` call sits on the branch that runs only once at least one
result row has been rendered. -/
theorem C10_empty_query_leaves_cache (cb : CacheBehavior) (st : DBState) (limit : Limit)
    (hq : catalogQuery st limit = []) (hget : cb.getFails = false) :
    ∃ res, list_media cb st limit = .ok res ∧
      res.cacheAfter = cb.entry ∧ res.setsPerformed = [] := by
  by_cases hhit : cacheHit cb limit
  · exact ⟨{ output := ["Fetching from cache...", ((cb.entry.map Prod.fst).getD "")],
             cacheAfter := cb.entry, getsPerformed := ["media_list"], setsPerformed := [] },
           by simp [list_media, hget, hhit], rfl, rfl⟩
  · exact ⟨{ output := ["Fetching from database...", "No media found. Please add media first!"],
             cacheAfter := cb.entry, getsPerformed := ["media_list"], setsPerformed := [] },
           by simp [list_media, hget, hhit, hq], rfl, rfl⟩

/-- Witness for `C10_empty_query_leaves_cache`: an empty media table
with a populated cache entry, queried bounded. -/
theorem C10_witness :
    catalogQuery (DBState.mk [1] [] [] [] []) (Limit.num 2) = [] ∧
    (CacheBehavior.mk (some ("cached table", 42)) false false).getFails = false ∧
    ∃ res, list_media (CacheBehavior.mk (some ("cached table", 42)) false false)
        (DBState.mk [1] [] [] [] []) (Limit.num 2) = .ok res ∧
      res.cacheAfter = some ("cached table", 42) ∧ res.setsPerformed = [] :=
  ⟨rfl, rfl, C10_empty_query_leaves_cache _ _ (Limit.num 2) rfl rfl⟩

/-- Claim C3 (amended): every successful `list_media` call — bounded or
unbounded — performs the cache read of the single fixed key
`"media_list"`; every cache write it performs targets that same key with
TTL 60; and a write happens exactly when the call was not served from
the cache (`cached_media and limit == "all"` false) and the store query
returned at least one row. -/
theorem C3_amended_every_call_touches_cache (cb : CacheBehavior) (st : DBState)
    (limit : Limit) (hget : cb.getFails = false) :
    ∀ res, list_media cb st limit = .ok res →
      res.getsPerformed = ["media_list"] ∧
      (∀ s ∈ res.setsPerformed, s.1 = "media_list" ∧ s.2.2 = 60) ∧
      (res.setsPerformed ≠ [] ↔ cacheHit cb limit = false ∧ catalogQuery st limit ≠ []) := by
  intro res hres
  by_cases hhit : cacheHit cb limit = true
  · simp only [list_media, hget, Bool.false_eq_true, if_false, hhit, if_true,
      Except.ok.injEq] at hres
    subst hres
    refine ⟨rfl, by simp, ?_⟩
    simp [hhit]
  · rw [Bool.not_eq_true] at hhit
    cases hq : (catalogQuery st limit).isEmpty
    · cases hrt : renderTable (catalogQuery st limit) with
      | error e =>
        simp only [list_media, hget, Bool.false_eq_true, if_false, hhit, hq, hrt,
          Bool.true_eq_false, reduceCtorEq] at hres
      | ok table =>
        by_cases hsf : cb.setFails = true
        · simp only [list_media, hget, Bool.false_eq_true, if_false, hhit, hq, hrt, hsf,
            if_true, Bool.true_eq_false, reduceCtorEq] at hres
        · rw [Bool.not_eq_true] at hsf
          simp only [list_media, hget, Bool.false_eq_true, if_false, hhit, hq, hrt, hsf,
            Bool.true_eq_false, Except.ok.injEq] at hres
          subst hres
          refine ⟨rfl, by simp, ?_⟩
          have hne : catalogQuery st limit ≠ [] := by
            intro hnil
            rw [hnil] at hq
            simp at hq
          simp [hhit, hne]
    · simp only [list_media, hget, Bool.false_eq_true, if_false, hhit, hq, if_true,
        Except.ok.injEq] at hres
      subst hres
      refine ⟨rfl, by simp, ?_⟩
      have hnil : catalogQuery st limit = [] := List.isEmpty_iff.mp hq
      simp [hnil]

/-- Witness for `C3_amended_every_call_touches_cache` at the concrete
bounded call of the counterexample: the get and the set both happened on
the single key. -/
theorem C3_amended_witness :
    (CacheBehavior.mk none false false).getFails = false ∧
    ∀ res, list_media (CacheBehavior.mk none false false)
        (DBState.mk [] [MediaRow.mk 1 "Inception" "Movie"] [] [] []) (Limit.num 1) = .ok res →
      res.getsPerformed = ["media_list"] ∧
      (∀ s ∈ res.setsPerformed, s.1 = "media_list" ∧ s.2.2 = 60) ∧
      (res.setsPerformed ≠ [] ↔
        cacheHit (CacheBehavior.mk none false false) (Limit.num 1) = false ∧
        catalogQuery (DBState.mk [] [MediaRow.mk 1 "Inception" "Movie"] [] [] [])
          (Limit.num 1) ≠ []) :=
  ⟨rfl, C3_amended_every_call_touches_cache _ _ _ rfl⟩

/-- Helper: `add_review` with a singleton batch and an existing acting
user appends exactly the review row and the alert rows derived from the
favorites of the reviewed media. -/
theorem add_review_singleton (A M : Nat) (r : Int) (c : String) (st : DBState)
    (hA : st.users.contains A = true) :
    add_review A [(M, r, c)] st =
      { st with reviews := st.reviews ++ [Review.mk A M r c],
                alerts := st.alerts ++ derive_alerts st A M } := by
  unfold add_review
  rw [hA]
  simp [review_task, derive_alerts]

/-- Claim C7: every alert row created by review ingestion goes to a user
other than the reviewer and carries exactly the message
`"User {A} added a review for media ID {M}."`; when user B has favorited
media M (one favorites row, per the UNIQUE constraint) and A ≠ B, the
ingestion of A's review of M creates exactly one alert for B and none
for A; and when A reviews a media favorited only by A itself, zero
alerts are created. -/
theorem C7_alerts_exclude_reviewer (st : DBState) (A B M : Nat) (r : Int) (c : String)
    (hA : st.users.contains A = true)
    (hB : st.favorites.count (Favorite.mk B M) = 1) :
    (add_review A [(M, r, c)] st).alerts = st.alerts ++ derive_alerts st A M ∧
    (∀ a ∈ derive_alerts st A M, a.user_id ≠ A ∧ a.message = alert_message A M) ∧
    (A ≠ B →
      (derive_alerts st A M).countP (fun a => a.user_id == B) = 1 ∧
      (derive_alerts st A M).countP (fun a => a.user_id == A) = 0) ∧
    ((∀ f ∈ st.favorites, f.media_id = M → f.user_id = B) → A = B →
      derive_alerts st A M = []) := by
  have hmem : ∀ a ∈ derive_alerts st A M, a.user_id ≠ A ∧ a.message = alert_message A M := by
    intro a ha
    unfold derive_alerts at ha
    simp only [List.mem_map, List.mem_filter] at ha
    obtain ⟨u, ⟨hu, huA⟩, rfl⟩ := ha
    exact ⟨by simpa using huA, rfl⟩
  refine ⟨by rw [add_review_singleton A M r c st hA], hmem, ?_, ?_⟩
  · intro hAB
    constructor
    · unfold derive_alerts
      rw [List.countP_map, List.countP_filter, List.countP_map, List.countP_filter]
      rw [List.count_eq_countP] at hB
      rw [← hB]
      apply List.countP_congr
      intro f _
      cases f with
      | mk fu fm =>
        simp only [Function.comp, Bool.and_eq_true, beq_iff_eq, bne_iff_ne, ne_eq,
          Favorite.mk.injEq]
        constructor
        · rintro ⟨⟨h1, _⟩, h2⟩
          exact ⟨h1, h2⟩
        · rintro ⟨h1, h2⟩
          exact ⟨⟨h1, fun hA2 => hAB (h1 ▸ hA2.symm)⟩, h2⟩
    · rw [List.countP_eq_zero]
      intro a ha
      simp only [beq_iff_eq]
      intro hEq
      exact ((hmem a ha).1 (by simpa using hEq)).elim
  · intro hall hAB
    subst hAB
    unfold derive_alerts
    have hnil : (((st.favorites.filter (fun f => f.media_id == M)).map Favorite.user_id).filter
        (fun u => u != A)) = [] := by
      rw [List.filter_eq_nil_iff]
      intro u hu
      simp only [List.mem_map, List.mem_filter] at hu
      obtain ⟨f, ⟨hf, hfm⟩, rfl⟩ := hu
      have hfB : f.user_id = A := hall f hf (by simpa using hfm)
      simp [hfB]
    rw [hnil, List.map_nil]

/-- Witness for `C7_alerts_exclude_reviewer`: user 1 reviews media 5,
which user 2 (and only user 2) has favorited; exactly one alert is
created, addressed to user 2 with the fixed-format message. -/
theorem C7_witness :
    (DBState.mk [1, 2] [MediaRow.mk 5 "Up" "Movie"] [] [Favorite.mk 2 5] []).users.contains 1
      = true ∧
    (DBState.mk [1, 2] [MediaRow.mk 5 "Up" "Movie"] [] [Favorite.mk 2 5] []).favorites.count
      (Favorite.mk 2 5) = 1 ∧
    ((add_review 1 [(5, 4, "good")]
        (DBState.mk [1, 2] [MediaRow.mk 5 "Up" "Movie"] [] [Favorite.mk 2 5] [])).alerts
      = [] ++ derive_alerts
          (DBState.mk [1, 2] [MediaRow.mk 5 "Up" "Movie"] [] [Favorite.mk 2 5] []) 1 5 ∧
     (∀ a ∈ derive_alerts
          (DBState.mk [1, 2] [MediaRow.mk 5 "Up" "Movie"] [] [Favorite.mk 2 5] []) 1 5,
        a.user_id ≠ 1 ∧ a.message = alert_message 1 5) ∧
     ((1 : Nat) ≠ 2 →
       (derive_alerts (DBState.mk [1, 2] [MediaRow.mk 5 "Up" "Movie"] [] [Favorite.mk 2 5] [])
          1 5).countP (fun a => a.user_id == 2) = 1 ∧
       (derive_alerts (DBState.mk [1, 2] [MediaRow.mk 5 "Up" "Movie"] [] [Favorite.mk 2 5] [])
          1 5).countP (fun a => a.user_id == 1) = 0) ∧
     ((∀ f ∈ (DBState.mk [1, 2] [MediaRow.mk 5 "Up" "Movie"] [] [Favorite.mk 2 5] []).favorites,
        f.media_id = 5 → f.user_id = 2) → 1 = 2 →
       derive_alerts (DBState.mk [1, 2] [MediaRow.mk 5 "Up" "Movie"] [] [Favorite.mk 2 5] [])
         1 5 = [])) :=
  ⟨rfl, rfl, C7_alerts_exclude_reviewer _ 1 2 5 4 "good" rfl rfl⟩

end MediaReview
